import Mathlib

/-!
Verification of the booking/payment consistency workflow of the
mavenux online-booking platform server (`src/index.js`).

The embedding models the document store as lists of records and each
request handler as a pure function from a store state (plus request
data and, for the payment routes, the gateway's session data) to an
HTTP status code, a new state, and — for the settlement handler — the
ordered list of database writes it issues, so that the intermediate
states between writes are observable.

Numbers (prices, quantities) are modelled as `Int`: the handlers read
them from JSON request bodies and documents, and every claim under
study concerns integer arithmetic on them.  MongoDB guarantees `_id`
uniqueness inside a collection; single-document updates keyed on `_id`
are therefore modelled as a map over the list that rewrites the
matching record, and the theorems that need it carry the corresponding
`Nodup` hypothesis on the stored ids.
-/

/-- A ticket listing document (`tickets` collection).  Denormalized
display fields (title, route, vendor name/email, transport type,
image) play no role in any claim and are omitted; `status` is the
moderation status string, and booking is only allowed when it is
`"accepted"` (see the `findOne` filter at src/index.js:1055-1058). -/
structure Ticket where
  tid : Nat
  price : Int
  ticketQuantity : Int
  status : String
  departureDate : String
  departureTime : String
  deriving Repr, DecidableEq

/-- A booking document (`bookings` collection).  `price` is the unit
price snapshotted from the ticket at creation time, `totalPrice` the
captured total; display fields are omitted as in `Ticket`. -/
structure Booking where
  bid : Nat
  ticketId : Nat
  price : Int
  bookingQuantity : Int
  totalPrice : Int
  status : String
  transactionId : Option String
  departureDate : String
  departureTime : String
  deriving Repr, DecidableEq

/-- A transaction document (`transactions` collection); `note` is the
free-text note the failure branch attaches (src/index.js:1383). -/
structure Txn where
  transactionId : Option String
  bookingId : Nat
  amount : Int
  status : String
  note : Option String
  deriving Repr, DecidableEq

/-- The document store.  `nextId` supplies the fresh `_id` for an
inserted booking. -/
structure DB where
  tickets : List Ticket
  bookings : List Booking
  transactions : List Txn
  nextId : Nat
  deriving Repr, DecidableEq

/-- The data the Stripe gateway returns for a checkout session
(`stripe.checkout.sessions.retrieve` at src/index.js:1341): the
payment status, the `bookingId` stored in the session metadata, and
the payment-intent reference. -/
structure StripeSession where
  payment_status : String
  bookingId : Nat
  payment_intent : Option String
  deriving Repr, DecidableEq

/-- MongoDB `updateOne`/`findOneAndUpdate` keyed on a unique `_id`:
rewrite the matching record in place.  (With duplicate keys this
would rewrite all matches; the `_id` index makes that case
unreachable, and theorems that quantify over whole collections carry
a `Nodup` hypothesis.) -/
def updateWhere (p : α → Bool) (f : α → α) (l : List α) : List α :=
  l.map fun x => if p x then f x else x

/-- First ticket with the given `_id`. -/
def findTicket (s : DB) (i : Nat) : Option Ticket :=
  s.tickets.find? fun t => t.tid == i

/-- First booking with the given `_id`. -/
def findBooking (s : DB) (i : Nat) : Option Booking :=
  s.bookings.find? fun b => b.bid == i

/-- Moderation-status filter used by the booking route:
`{_id: ticketId, status: "accepted"}` (src/index.js:1055-1058). -/
def findBookableTicket (s : DB) (i : Nat) : Option Ticket :=
  s.tickets.find? fun t => t.tid == i && t.status == "accepted"

/-- `POST /api/bookings` (src/index.js:1044-1126).  Input: the
`ticketId` from the body (absent or falsy → 400) and the requested
`bookingQuantity`.  Returns the HTTP status, the new store state and
the created booking document, if any.  The source's `NaN` price check
collapses to the `price < 0` test under the `Int` model, and
`ticket.ticketQuantity || 0` is the identity on `Int`.  Note that
after the availability check the handler *decrements the ticket's
quantity at creation time* (src/index.js:1105-1108) and answers with
`res.json` (HTTP 200).  The created document itself is `mkBooking`
(src/index.js:1082-1103): status `pending`, unit price snapshotted
from the ticket, total price = unit price times quantity. -/
def mkBooking (s : DB) (t : Ticket) (q : Int) : Booking :=
  { bid := s.nextId
    ticketId := t.tid
    price := t.price
    bookingQuantity := q
    totalPrice := t.price * q
    status := "pending"
    transactionId := none
    departureDate := t.departureDate
    departureTime := t.departureTime }

def createBooking (s : DB) (ticketId? : Option Nat) (q : Int) :
    Nat × DB × Option Booking :=
  match ticketId? with
  | none => (400, s, none)
  | some i =>
    match findBookableTicket s i with
    | none => (404, s, none)
    | some t =>
      if t.price < 0 then (400, s, none)
      else if t.ticketQuantity < q then (400, s, none)
      else
        let nb : Booking := mkBooking s t q
        let s1 : DB :=
          { s with
            bookings := s.bookings ++ [nb]
            nextId := s.nextId + 1
            tickets := updateWhere (fun u => u.tid == t.tid)
              (fun u => { u with ticketQuantity := u.ticketQuantity - q })
              s.tickets }
        (200, s1, some nb)

/-- `PUT /api/bookings/:id/status` (src/index.js:1218-1249): set the
booking's status to whatever string the body carries; 404 when no
booking matches.  The handler validates neither the requested status
nor the current one. -/
def updateBookingStatus (s : DB) (i : Nat) (st : String) : Nat × DB :=
  match findBooking s i with
  | none => (404, s)
  | some _ =>
    (200,
      { s with
        bookings := updateWhere (fun b => b.bid == i)
          (fun b => { b with status := st }) s.bookings })

/-- `POST /api/payment/create-session` (src/index.js:1256-1334).
`parseDT` models JavaScript's `new Date(string)` (`none` = invalid
date) and `now` the current time; both are environment inputs.  The
handler performs no database write, so only the HTTP status and
whether `stripe.checkout.sessions.create` was reached are returned.
The `booking.status === "paid"` test at src/index.js:1291 is kept
although it is unreachable after the `"accepted"` guard. -/
def createSession (s : DB) (i : Nat) (parseDT : String → Option Int)
    (now : Int) : Nat × DB × Bool :=
  match findBooking s i with
  | none => (404, s, false)
  | some b =>
    if b.status != "accepted" then (400, s, false)
    else
      match parseDT (b.departureDate ++ " " ++ b.departureTime) with
      | none => (400, s, false)
      | some dt =>
        if dt ≤ now then (400, s, false)
        else if b.status == "paid" then (400, s, false)
        else (200, s, true)

/-- One database write issued by the settlement handler.  `decTicket`
is the atomic conditional test-and-decrement
(`findOneAndUpdate {_id, ticketQuantity: {$gte: q}} {$inc: -q}`,
src/index.js:1363-1370): the test is part of the write. -/
inductive VWrite where
  | decTicket (tid : Nat) (q : Int)
  | setBooking (bid : Nat) (st : String) (txid : Option String)
  | insertTxn (t : Txn)
  deriving Repr, DecidableEq

/-- Apply one settlement write to the store. -/
def applyVWrite (s : DB) : VWrite → DB
  | .decTicket tid q =>
    { s with
      tickets := updateWhere (fun t => t.tid == tid && q ≤ t.ticketQuantity)
        (fun t => { t with ticketQuantity := t.ticketQuantity - q }) s.tickets }
  | .setBooking bid st txid =>
    { s with
      bookings := updateWhere (fun b => b.bid == bid)
        (fun b => { b with status := st, transactionId := txid }) s.bookings }
  | .insertTxn t => { s with transactions := s.transactions ++ [t] }

/-- `POST /api/payment/verify` (src/index.js:1337-1448) as its HTTP
status plus the ordered list of writes it issues.  Branches, in
source order: gateway says not paid → 400, no write; booking missing
→ 404; booking already `paid` → 200, no write (idempotent return,
src/index.js:1356-1360); conditional decrement matched → decrement,
mark booking `paid`, then insert the `completed` transaction;
decrement unmatched → insert the `failed` transaction, then mark the
booking `payment_failed`, answer 409.  The branch matches
`findOneAndUpdate`'s result: the decrement write applies to the state
the test was evaluated in, since it is the first write issued. -/
def verifyPayment (s : DB) (sess : StripeSession) : Nat × List VWrite :=
  if sess.payment_status != "paid" then (400, [])
  else
    match findBooking s sess.bookingId with
    | none => (404, [])
    | some b =>
      if b.status == "paid" then (200, [])
      else
        match s.tickets.find?
            (fun t => t.tid == b.ticketId && b.bookingQuantity ≤ t.ticketQuantity) with
        | some _ =>
          (200,
            [ .decTicket b.ticketId b.bookingQuantity,
              .setBooking b.bid "paid" sess.payment_intent,
              .insertTxn
                { transactionId := sess.payment_intent
                  bookingId := b.bid
                  amount := b.totalPrice
                  status := "completed"
                  note := none } ])
        | none =>
          (409,
            [ .insertTxn
                { transactionId := sess.payment_intent
                  bookingId := b.bid
                  amount := b.totalPrice
                  status := "failed"
                  note := some "Insufficient tickets to fulfill booking" },
              .setBooking b.bid "payment_failed" sess.payment_intent ])

/-- Final state of a settlement call. -/
def verifyRun (s : DB) (sess : StripeSession) : Nat × DB :=
  let (code, ws) := verifyPayment s sess
  (code, ws.foldl applyVWrite s)

/-- States traversed while applying a list of writes in order,
starting state included. -/
def scanStates (s : DB) : List VWrite → List DB
  | [] => [s]
  | w :: ws => s :: scanStates (applyVWrite s w) ws

/-- The observable states of a settlement call: the initial state and
the state after each successive write. -/
def verifyStates (s : DB) (sess : StripeSession) : List DB :=
  scanStates s (verifyPayment s sess).2

/-- The booking's status as stored, `none` when no booking has the id. -/
def bookingStatus (s : DB) (i : Nat) : Option String :=
  (findBooking s i).map Booking.status

/-- The ticket's remaining quantity, `none` when no ticket has the id. -/
def ticketQty (s : DB) (i : Nat) : Option Int :=
  (findTicket s i).map Ticket.ticketQuantity

/-- Number of `completed` transaction rows recorded for a booking. -/
def completedCount (s : DB) (i : Nat) : Nat :=
  (s.transactions.filter fun t => t.bookingId == i && t.status == "completed").length

/-- Recognizes the settlement writes that touch the `tickets`
collection. -/
def isTicketWrite : VWrite → Bool
  | .decTicket _ _ => true
  | _ => false

/-- The two operations the inventory claims quantify over: booking
creation and payment settlement. -/
inductive Op where
  | createB (ticketId? : Option Nat) (q : Int)
  | settle (sess : StripeSession)

/-- State effect of one operation (the HTTP response is dropped). -/
def applyOp (s : DB) : Op → DB
  | .createB i q => (createBooking s i q).2.1
  | .settle sess => (verifyRun s sess).2

/-- Run a sequence of operations left to right. -/
def runOps (s : DB) (ops : List Op) : DB := ops.foldl applyOp s

/-- The quantity a creation request carries is non-negative
(settlement operations carry no request quantity). -/
def opQNonneg : Op → Prop
  | .createB _ q => 0 ≤ q
  | .settle _ => True

instance : DecidablePred opQNonneg := fun op =>
  match op with
  | .createB _ q => inferInstanceAs (Decidable (0 ≤ q))
  | .settle _ => inferInstanceAs (Decidable True)

/-- Total remaining quantity stored under ticket id `i` (equals the
ticket's quantity when ids are unique, `0` when the ticket is
absent). -/
def qtySum (i : Nat) (s : DB) : Int :=
  (s.tickets.map fun t => if t.tid == i then t.ticketQuantity else 0).sum

/-- Total quantity over all bookings referencing ticket `i`. -/
def bookedSum (i : Nat) (s : DB) : Int :=
  (s.bookings.map fun b => if b.ticketId == i then b.bookingQuantity else 0).sum

/-- Quantity already sold: total over `paid` bookings of ticket `i`. -/
def soldSum (i : Nat) (s : DB) : Int :=
  (s.bookings.map fun b =>
    if b.ticketId == i && b.status == "paid" then b.bookingQuantity else 0).sum

/-- Quantity reserved by non-terminal (`pending`/`accepted`) bookings
of ticket `i`. -/
def reservedSum (i : Nat) (s : DB) : Int :=
  (s.bookings.map fun b =>
    if b.ticketId == i && (b.status == "pending" || b.status == "accepted")
    then b.bookingQuantity else 0).sum

/-- Basic store well-formedness: ticket ids are unique (the `_id`
index) and remaining quantities are non-negative. -/
def StoreInv0 (s : DB) : Prop :=
  (s.tickets.map Ticket.tid).Nodup ∧ ∀ t ∈ s.tickets, 0 ≤ t.ticketQuantity

/-- Structural store well-formedness: unique ids in both collections
(the `_id` indexes), `nextId` fresh, non-negative booking and ticket
quantities. -/
def StoreMeta (s : DB) : Prop :=
  (s.tickets.map Ticket.tid).Nodup ∧
  (s.bookings.map Booking.bid).Nodup ∧
  (∀ b ∈ s.bookings, b.bid < s.nextId) ∧
  (∀ b ∈ s.bookings, 0 ≤ b.bookingQuantity) ∧
  (∀ t ∈ s.tickets, 0 ≤ t.ticketQuantity)

/-- Inductive invariant relating a reachable state to the original
quantities `orig`: structural well-formedness plus per-ticket
conservation — remaining quantity plus all booked quantity plus sold
quantity equals the original quantity. -/
def StoreInv (orig : Nat → Int) (s : DB) : Prop :=
  StoreMeta s ∧ ∀ i, qtySum i s + bookedSum i s + soldSum i s = orig i

/-! ## Concrete fixtures used to instantiate the theorems -/

/-- An accepted ticket listing with five remaining seats. -/
def sampleTicket : Ticket :=
  { tid := 1, price := 10, ticketQuantity := 5, status := "accepted",
    departureDate := "2030-01-01", departureTime := "10:00" }

/-- An accepted booking of two seats on `sampleTicket`. -/
def sampleBooking : Booking :=
  { bid := 5, ticketId := 1, price := 10, bookingQuantity := 2,
    totalPrice := 20, status := "accepted", transactionId := none,
    departureDate := "2030-01-01", departureTime := "10:00" }

/-- A store holding `sampleTicket` and `sampleBooking`. -/
def sampleDB : DB :=
  { tickets := [sampleTicket], bookings := [sampleBooking],
    transactions := [], nextId := 9 }

/-- A confirmed gateway session for `sampleBooking`. -/
def sampleSession : StripeSession :=
  { payment_status := "paid", bookingId := 5, payment_intent := some "pi_1" }

/-- Same store, but only one seat left: fewer than `sampleBooking`
requests, so its settlement takes the insufficient-inventory branch. -/
def lowStockDB : DB :=
  { sampleDB with tickets := [{ sampleTicket with ticketQuantity := 1 }] }

/-- A gateway session that is not completed. -/
def unpaidSession : StripeSession :=
  { payment_status := "unpaid", bookingId := 5, payment_intent := none }

/-- A store whose only ticket is still under moderation
(status `pending`), hence not bookable. -/
def pendingTicketDB : DB :=
  { tickets := [{ sampleTicket with tid := 2, status := "pending" }],
    bookings := [], transactions := [], nextId := 3 }

/-- A store with a `paid` booking (id 5) and a `pending` booking
(id 6). -/
def paidPendingDB : DB :=
  { tickets := [], transactions := [], nextId := 7,
    bookings :=
      [ { sampleBooking with bid := 5, status := "paid" },
        { sampleBooking with bid := 6, status := "pending" } ] }

/-- A store holding only `sampleTicket`, with no bookings yet. -/
def freshDB : DB :=
  { tickets := [sampleTicket], bookings := [], transactions := [], nextId := 1 }

/-- A confirmed gateway session for the first booking created in
`freshDB` (which receives id 1). -/
def freshSession : StripeSession :=
  { payment_status := "paid", bookingId := 1, payment_intent := some "pi_2" }

/-! ## Structural lemmas about the list-based store primitives -/

theorem updateWhere_cons (p : α → Bool) (f : α → α) (a : α) (l : List α) :
    updateWhere p f (a :: l) = (if p a then f a else a) :: updateWhere p f l := rfl

theorem updateWhere_eq_self (p : α → Bool) (f : α → α) (l : List α)
    (h : ∀ x ∈ l, p x = false) : updateWhere p f l = l := by
  induction l with
  | nil => rfl
  | cons a l ih =>
    rw [updateWhere_cons, h a (List.mem_cons_self a l),
      ih fun x hx => h x (List.mem_cons_of_mem a hx)]
    simp

theorem map_key_updateWhere (key : α → β) (p : α → Bool) (f : α → α)
    (hf : ∀ x, key (f x) = key x) (l : List α) :
    (updateWhere p f l).map key = l.map key := by
  unfold updateWhere
  rw [List.map_map]
  refine List.map_congr_left fun a _ => ?_
  by_cases h : p a = true <;> simp [h, hf]

theorem find?_updateWhere_key (key : α → Nat) (i : Nat) (f : α → α)
    (hf : ∀ x, key (f x) = key x) (l : List α) :
    (updateWhere (fun x => key x == i) f l).find? (fun x => key x == i)
      = (l.find? (fun x => key x == i)).map f := by
  induction l with
  | nil => rfl
  | cons a l ih =>
    rw [updateWhere_cons]
    by_cases h : key a = i
    · simp [List.find?_cons, h, hf]
    · simp only [beq_eq_false_iff_ne, ne_eq, h, not_false_eq_true, if_neg,
        beq_iff_eq]
      simp [List.find?_cons, h, ih]

theorem find?_updateWhere_keyCond (key : α → Nat) (i : Nat) (c : α → Bool)
    (f : α → α) (hf : ∀ x, key (f x) = key x) (l : List α) :
    (updateWhere (fun x => key x == i && c x) f l).find? (fun x => key x == i)
      = (l.find? (fun x => key x == i)).map (fun x => if c x then f x else x) := by
  induction l with
  | nil => rfl
  | cons a l ih =>
    rw [updateWhere_cons]
    by_cases h : key a = i
    · by_cases hc : c a = true
      · simp [List.find?_cons, h, hc, hf]
      · simp [List.find?_cons, h, hc]
    · simp [List.find?_cons, h, ih]

theorem find?_key_of_mem (key : α → Nat) (i : Nat) (l : List α)
    (hnd : (l.map key).Nodup) (x : α) (hx : x ∈ l) (hk : key x = i) :
    l.find? (fun y => key y == i) = some x := by
  induction l with
  | nil => cases hx
  | cons a l ih =>
    rw [List.map_cons] at hnd
    obtain ⟨hna, hndl⟩ := List.nodup_cons.mp hnd
    rcases List.mem_cons.mp hx with rfl | hx'
    · simp [List.find?_cons, hk]
    · by_cases h : key a = i
      · exact absurd (by rw [h, ← hk]; exact List.mem_map_of_mem key hx') hna
      · simpa [List.find?_cons, h] using ih hndl hx'

theorem find?_cond_of_nodup (key : α → Nat) (c : α → Bool) (i : Nat)
    (l : List α) (hnd : (l.map key).Nodup) (t : α)
    (ht : l.find? (fun x => key x == i) = some t) :
    l.find? (fun x => key x == i && c x) = if c t then some t else none := by
  induction l with
  | nil => cases ht
  | cons a l ih =>
    rw [List.map_cons] at hnd
    obtain ⟨hna, hndl⟩ := List.nodup_cons.mp hnd
    by_cases h : key a = i
    · have hta : t = a := by
        simp [List.find?_cons, h] at ht
        exact ht.symm
      subst hta
      by_cases hc : c t = true
      · simp [List.find?_cons, h, hc]
      · have hnone : l.find? (fun x => key x == i && c x) = none := by
          rw [List.find?_eq_none]
          intro x hx
          simp only [Bool.and_eq_true, beq_iff_eq, not_and]
          intro hxk _
          exact hna (by rw [h, ← hxk]; exact List.mem_map_of_mem key hx)
        simp [List.find?_cons, h, hc, hnone]
    · have ht' : l.find? (fun x => key x == i) = some t := by
        simpa [List.find?_cons, h] using ht
      simpa [List.find?_cons, h] using ih hndl ht'

theorem sum_map_updateWhere_congr (g : α → Int) (p : α → Bool) (f : α → α)
    (l : List α) (h : ∀ x, p x = true → g (f x) = g x) :
    ((updateWhere p f l).map g).sum = (l.map g).sum := by
  unfold updateWhere
  rw [List.map_map]
  refine congrArg List.sum (List.map_congr_left fun a _ => ?_)
  by_cases hp : p a = true
  · simp [Function.comp, hp, h a hp]
  · simp [Function.comp, hp]

theorem sum_map_updateWhere_key (g : α → Int) (key : α → Nat) (i : Nat)
    (f : α → α) (l : List α) (hnd : (l.map key).Nodup) :
    ((updateWhere (fun x => key x == i) f l).map g).sum
      = (l.map g).sum
        + ((l.find? (fun x => key x == i)).elim 0 fun x => g (f x) - g x) := by
  induction l with
  | nil => simp [updateWhere]
  | cons a l ih =>
    rw [List.map_cons] at hnd
    obtain ⟨hna, hndl⟩ := List.nodup_cons.mp hnd
    rw [updateWhere_cons]
    by_cases h : key a = i
    · have hself : updateWhere (fun x => key x == i) f l = l := by
        apply updateWhere_eq_self
        intro x hx
        simp only [beq_eq_false_iff_ne, ne_eq]
        intro hxk
        exact hna (by rw [h, ← hxk]; exact List.mem_map_of_mem key hx)
      simp only [List.find?_cons, h]
      simp [hself, h]
      ring
    · simp only [List.find?_cons]
      have hba : (key a == i) = false := by simp [h]
      simp [hba, ih hndl]
      ring

theorem sum_map_eq_of_find? (key : α → Nat) (v : α → Int) (i : Nat)
    (l : List α) (hnd : (l.map key).Nodup) (t : α)
    (ht : l.find? (fun x => key x == i) = some t) :
    (l.map fun x => if key x == i then v x else 0).sum = v t := by
  induction l with
  | nil => cases ht
  | cons a l ih =>
    rw [List.map_cons] at hnd
    obtain ⟨hna, hndl⟩ := List.nodup_cons.mp hnd
    by_cases h : key a = i
    · have hta : t = a := by
        simp [List.find?_cons, h] at ht
        exact ht.symm
      subst hta
      have hzero : (l.map fun x => if key x == i then v x else 0).sum = 0 := by
        apply List.sum_eq_zero
        intro x hx
        rw [List.mem_map] at hx
        obtain ⟨y, hy, rfl⟩ := hx
        have hky : ¬ key y = i := fun hk =>
          hna (by rw [h, ← hk]; exact List.mem_map_of_mem key hy)
        simp [hky]
      rw [List.map_cons, List.sum_cons, hzero]
      simp [h]
    · have ht' : l.find? (fun x => key x == i) = some t := by
        simpa [List.find?_cons, h] using ht
      simpa [h] using ih hndl ht'

/-! ## Branch-by-branch characterization of the handlers -/

theorem verifyRun_eq (s : DB) (sess : StripeSession) :
    verifyRun s sess
      = ((verifyPayment s sess).1,
         (verifyPayment s sess).2.foldl applyVWrite s) := rfl

theorem createBooking_noId (s : DB) (q : Int) :
    createBooking s none q = (400, s, none) := rfl

theorem createBooking_notFound (s : DB) (i : Nat) (q : Int)
    (h : findBookableTicket s i = none) :
    createBooking s (some i) q = (404, s, none) := by
  simp only [createBooking]
  rw [h]

theorem createBooking_badPrice (s : DB) (i : Nat) (q : Int) (t : Ticket)
    (h : findBookableTicket s i = some t) (hp : t.price < 0) :
    createBooking s (some i) q = (400, s, none) := by
  simp only [createBooking]
  rw [h]
  simp [hp]

theorem createBooking_insufficient (s : DB) (i : Nat) (q : Int) (t : Ticket)
    (h : findBookableTicket s i = some t) (hp : ¬ t.price < 0)
    (hq : t.ticketQuantity < q) :
    createBooking s (some i) q = (400, s, none) := by
  simp only [createBooking]
  rw [h]
  simp [hp, hq]

theorem createBooking_ok (s : DB) (i : Nat) (q : Int) (t : Ticket)
    (h : findBookableTicket s i = some t) (hp : ¬ t.price < 0)
    (hq : ¬ t.ticketQuantity < q) :
    createBooking s (some i) q
      = (200,
         { s with
           bookings := s.bookings ++ [mkBooking s t q]
           nextId := s.nextId + 1
           tickets := updateWhere (fun u => u.tid == t.tid)
             (fun u => { u with ticketQuantity := u.ticketQuantity - q })
             s.tickets },
         some (mkBooking s t q)) := by
  simp only [createBooking]
  rw [h]
  simp [hp, hq]

theorem verifyPayment_notPaid (s : DB) (sess : StripeSession)
    (h : sess.payment_status ≠ "paid") :
    verifyPayment s sess = (400, []) := by
  unfold verifyPayment
  simp [h]

theorem verifyPayment_noBooking (s : DB) (sess : StripeSession)
    (hps : sess.payment_status = "paid")
    (hb : findBooking s sess.bookingId = none) :
    verifyPayment s sess = (404, []) := by
  unfold verifyPayment
  rw [hps, hb]
  simp

theorem verifyPayment_alreadyPaid (s : DB) (sess : StripeSession) (b : Booking)
    (hps : sess.payment_status = "paid")
    (hb : findBooking s sess.bookingId = some b)
    (hsp : b.status = "paid") :
    verifyPayment s sess = (200, []) := by
  unfold verifyPayment
  rw [hps, hb]
  simp [hsp]

theorem verifyPayment_success (s : DB) (sess : StripeSession) (b : Booking)
    (t : Ticket) (hps : sess.payment_status = "paid")
    (hb : findBooking s sess.bookingId = some b)
    (hnp : b.status ≠ "paid")
    (hcond : s.tickets.find?
        (fun u => u.tid == b.ticketId && b.bookingQuantity ≤ u.ticketQuantity)
      = some t) :
    verifyPayment s sess
      = (200,
         [ .decTicket b.ticketId b.bookingQuantity,
           .setBooking b.bid "paid" sess.payment_intent,
           .insertTxn
             { transactionId := sess.payment_intent
               bookingId := b.bid
               amount := b.totalPrice
               status := "completed"
               note := none } ]) := by
  unfold verifyPayment
  rw [hps, hb]
  simp [hnp, hcond]

theorem verifyPayment_insufficient (s : DB) (sess : StripeSession) (b : Booking)
    (hps : sess.payment_status = "paid")
    (hb : findBooking s sess.bookingId = some b)
    (hnp : b.status ≠ "paid")
    (hcond : s.tickets.find?
        (fun u => u.tid == b.ticketId && b.bookingQuantity ≤ u.ticketQuantity)
      = none) :
    verifyPayment s sess
      = (409,
         [ .insertTxn
             { transactionId := sess.payment_intent
               bookingId := b.bid
               amount := b.totalPrice
               status := "failed"
               note := some "Insufficient tickets to fulfill booking" },
           .setBooking b.bid "payment_failed" sess.payment_intent ]) := by
  unfold verifyPayment
  rw [hps, hb]
  simp [hnp, hcond]

/-! ## Frame lemmas for the settlement writes -/

theorem findTicket_decTicket (s : DB) (i : Nat) (q : Int) :
    findTicket (applyVWrite s (VWrite.decTicket i q)) i
      = (findTicket s i).map fun t =>
          if q ≤ t.ticketQuantity
          then { t with ticketQuantity := t.ticketQuantity - q } else t := by
  simp only [findTicket, applyVWrite]
  have h := find?_updateWhere_keyCond Ticket.tid i
    (fun u => decide (q ≤ u.ticketQuantity))
    (fun t => { t with ticketQuantity := t.ticketQuantity - q })
    (fun x => rfl) s.tickets
  simpa using h

theorem findTicket_setBooking (s : DB) (i j : Nat) (st : String)
    (tx : Option String) :
    findTicket (applyVWrite s (VWrite.setBooking j st tx)) i = findTicket s i := rfl

theorem findTicket_insertTxn (s : DB) (i : Nat) (t : Txn) :
    findTicket (applyVWrite s (VWrite.insertTxn t)) i = findTicket s i := rfl

theorem findBooking_setBooking (s : DB) (j : Nat) (st : String)
    (tx : Option String) :
    findBooking (applyVWrite s (VWrite.setBooking j st tx)) j
      = (findBooking s j).map fun b =>
          { b with status := st, transactionId := tx } := by
  simp only [findBooking, applyVWrite]
  exact find?_updateWhere_key Booking.bid j
    (fun b => { b with status := st, transactionId := tx })
    (fun x => rfl) s.bookings

theorem findBooking_decTicket (s : DB) (i j : Nat) (q : Int) :
    findBooking (applyVWrite s (VWrite.decTicket j q)) i = findBooking s i := rfl

theorem findBooking_insertTxn (s : DB) (i : Nat) (t : Txn) :
    findBooking (applyVWrite s (VWrite.insertTxn t)) i = findBooking s i := rfl

theorem findBooking_bid (s : DB) (i : Nat) (b : Booking)
    (h : findBooking s i = some b) : b.bid = i := by
  simp only [findBooking] at h
  simpa using List.find?_some h

/-! ## The claims -/

/-- C1: For every settlement call (`POST /api/payment/verify`) on a
booking that is not already paid and whose payment is confirmed, the
ticket's remaining quantity is decremented by the booking's quantity
iff the remaining quantity at that moment is at least the booking's
quantity — and the decrement is the single conditional
test-and-decrement write; when the remaining quantity is below the
booking's quantity the ticket's quantity is left unchanged. -/
theorem C1_settlement_conditional_decrement (s : DB) (sess : StripeSession)
    (b : Booking) (t : Ticket)
    (hnd : (s.tickets.map Ticket.tid).Nodup)
    (hps : sess.payment_status = "paid")
    (hb : findBooking s sess.bookingId = some b)
    (hnp : b.status ≠ "paid")
    (ht : findTicket s b.ticketId = some t) :
    ticketQty (verifyRun s sess).2 b.ticketId
        = some (if b.bookingQuantity ≤ t.ticketQuantity
                then t.ticketQuantity - b.bookingQuantity
                else t.ticketQuantity)
      ∧ (verifyPayment s sess).2.filter isTicketWrite
          = (if b.bookingQuantity ≤ t.ticketQuantity
             then [VWrite.decTicket b.ticketId b.bookingQuantity] else []) := by
  have ht' : s.tickets.find? (fun u => u.tid == b.ticketId) = some t := ht
  have hcond := find?_cond_of_nodup Ticket.tid
    (fun u => decide (b.bookingQuantity ≤ u.ticketQuantity)) b.ticketId
    s.tickets hnd t ht'
  by_cases hq : b.bookingQuantity ≤ t.ticketQuantity
  · simp only [decide_eq_true_eq, hq, if_true] at hcond
    have hvp := verifyPayment_success s sess b t hps hb hnp hcond
    constructor
    · rw [verifyRun_eq, hvp]
      simp only [List.foldl_cons, List.foldl_nil, ticketQty]
      rw [findTicket_insertTxn, findTicket_setBooking, findTicket_decTicket, ht]
      simp [hq]
    · rw [hvp]
      simp [isTicketWrite, hq]
  · simp only [decide_eq_true_eq, hq, if_false] at hcond
    have hvp := verifyPayment_insufficient s sess b hps hb hnp hcond
    constructor
    · rw [verifyRun_eq, hvp]
      simp only [List.foldl_cons, List.foldl_nil, ticketQty]
      rw [findTicket_setBooking, findTicket_insertTxn, ht]
      simp [hq]
    · rw [hvp]
      simp [isTicketWrite, hq]

/-- Witness for C1 at the sample store: the accepted booking of two
seats settles against five remaining seats, leaving three. -/
theorem C1_settlement_conditional_decrement_witness :
    ticketQty (verifyRun sampleDB sampleSession).2 1 = some 3
      ∧ (verifyPayment sampleDB sampleSession).2.filter isTicketWrite
          = [VWrite.decTicket 1 2] := by
  have h := C1_settlement_conditional_decrement sampleDB sampleSession
    sampleBooking sampleTicket (by decide) rfl (by decide) (by decide) (by decide)
  simpa [sampleBooking, sampleTicket] using h

/-- C2: Settlement is idempotent — a second `POST /api/payment/verify`
for a booking already `paid` returns 200 and changes nothing, so two
settlements of the same booking yield status `paid` exactly once and
add exactly one `completed` transaction row. -/
theorem C2_settlement_idempotent (s : DB) (sess : StripeSession) :
    (∀ b, sess.payment_status = "paid" →
        findBooking s sess.bookingId = some b → b.status = "paid" →
        verifyRun s sess = (200, s))
      ∧ (∀ b t, sess.payment_status = "paid" →
          findBooking s sess.bookingId = some b → b.status ≠ "paid" →
          s.tickets.find? (fun u => u.tid == b.ticketId
              && b.bookingQuantity ≤ u.ticketQuantity) = some t →
          bookingStatus (verifyRun s sess).2 sess.bookingId = some "paid"
            ∧ verifyRun (verifyRun s sess).2 sess = (200, (verifyRun s sess).2)
            ∧ completedCount (verifyRun s sess).2 sess.bookingId
                = completedCount s sess.bookingId + 1) := by
  constructor
  · intro b hps hb hbp
    rw [verifyRun_eq, verifyPayment_alreadyPaid s sess b hps hb hbp]
    rfl
  · intro b t hps hb hnp hcond
    have hvp := verifyPayment_success s sess b t hps hb hnp hcond
    have hbid : b.bid = sess.bookingId := findBooking_bid s sess.bookingId b hb
    have hfb1 : findBooking (verifyRun s sess).2 sess.bookingId
        = some { b with status := "paid", transactionId := sess.payment_intent } := by
      rw [verifyRun_eq, hvp]
      simp only [List.foldl_cons, List.foldl_nil]
      rw [findBooking_insertTxn, ← hbid, findBooking_setBooking,
        findBooking_decTicket, hbid, hb]
      simp [hbid]
    refine ⟨?_, ?_, ?_⟩
    · rw [bookingStatus, hfb1]
      rfl
    · rw [verifyRun_eq (verifyRun s sess).2 sess,
        verifyPayment_alreadyPaid (verifyRun s sess).2 sess _ hps hfb1 rfl]
      rfl
    · have htx : (verifyRun s sess).2.transactions
          = s.transactions
            ++ [{ transactionId := sess.payment_intent, bookingId := b.bid,
                  amount := b.totalPrice, status := "completed", note := none }] := by
        rw [verifyRun_eq, hvp]
        rfl
      simp [completedCount, htx, List.filter_append, hbid]

/-- Witness for C2: an already-paid booking settles to 200 with no
change, and the sample booking settles to `paid` with one completed
transaction, a second settlement changing nothing. -/
theorem C2_settlement_idempotent_witness :
    verifyRun paidPendingDB sampleSession = (200, paidPendingDB)
      ∧ bookingStatus (verifyRun sampleDB sampleSession).2 5 = some "paid"
      ∧ verifyRun (verifyRun sampleDB sampleSession).2 sampleSession
          = (200, (verifyRun sampleDB sampleSession).2)
      ∧ completedCount (verifyRun sampleDB sampleSession).2 5 = 1 := by
  have ha := (C2_settlement_idempotent paidPendingDB sampleSession).1
    { sampleBooking with bid := 5, status := "paid" } rfl (by decide) rfl
  have hb := (C2_settlement_idempotent sampleDB sampleSession).2
    sampleBooking sampleTicket rfl (by decide) (by decide) (by decide)
  refine ⟨ha, hb.1, hb.2.1, ?_⟩
  show completedCount (verifyRun sampleDB sampleSession).2
    sampleSession.bookingId = 1
  rw [hb.2.2]
  rfl

/-- C5: When settlement's conditional decrement fails for a non-paid
booking with completed payment, the handler marks the booking
`payment_failed`, appends a `failed` transaction whose amount is the
booking's captured total price, and answers 409; when the gateway
reports the payment as not completed it answers 400 and changes no
state. -/
theorem C5_settlement_failure_and_unpaid (s : DB) (sess : StripeSession) :
    (∀ b, sess.payment_status = "paid" →
        findBooking s sess.bookingId = some b → b.status ≠ "paid" →
        s.tickets.find? (fun u => u.tid == b.ticketId
            && b.bookingQuantity ≤ u.ticketQuantity) = none →
        (verifyRun s sess).1 = 409
          ∧ bookingStatus (verifyRun s sess).2 sess.bookingId
              = some "payment_failed"
          ∧ (verifyRun s sess).2.transactions
              = s.transactions
                ++ [{ transactionId := sess.payment_intent, bookingId := b.bid,
                      amount := b.totalPrice, status := "failed",
                      note := some "Insufficient tickets to fulfill booking" }]
          ∧ (verifyRun s sess).2.tickets = s.tickets)
      ∧ (sess.payment_status ≠ "paid" → verifyRun s sess = (400, s)) := by
  constructor
  · intro b hps hb hnp hcond
    have hvp := verifyPayment_insufficient s sess b hps hb hnp hcond
    have hbid : b.bid = sess.bookingId := findBooking_bid s sess.bookingId b hb
    refine ⟨?_, ?_, ?_, ?_⟩
    · rw [verifyRun_eq, hvp]
    · rw [verifyRun_eq, hvp]
      simp only [List.foldl_cons, List.foldl_nil, bookingStatus]
      rw [← hbid, findBooking_setBooking, findBooking_insertTxn, hbid, hb]
      simp [hbid]
    · rw [verifyRun_eq, hvp]
      rfl
    · rw [verifyRun_eq, hvp]
      rfl
  · intro h
    rw [verifyRun_eq, verifyPayment_notPaid s sess h]
    rfl

/-- Witness for C5 at the low-stock store: one seat left, two
requested — 409, `payment_failed`, one failed transaction of amount
20, inventory untouched; and an uncompleted gateway session gives 400
and no change. -/
theorem C5_settlement_failure_and_unpaid_witness :
    (verifyRun lowStockDB sampleSession).1 = 409
      ∧ bookingStatus (verifyRun lowStockDB sampleSession).2 5
          = some "payment_failed"
      ∧ (verifyRun lowStockDB sampleSession).2.transactions
          = [{ transactionId := some "pi_1", bookingId := 5, amount := 20,
               status := "failed",
               note := some "Insufficient tickets to fulfill booking" }]
      ∧ (verifyRun lowStockDB sampleSession).2.tickets = lowStockDB.tickets
      ∧ verifyRun lowStockDB unpaidSession = (400, lowStockDB) := by
  obtain ⟨h1, h2, h3, h4⟩ := (C5_settlement_failure_and_unpaid lowStockDB
    sampleSession).1 sampleBooking rfl (by decide) (by decide) (by decide)
  have h5 := (C5_settlement_failure_and_unpaid lowStockDB unpaidSession).2
    (by decide)
  exact ⟨h1, h2, by simpa [lowStockDB, sampleDB, sampleBooking, sampleSession] using h3, h4, h5⟩

/-- Counterexample to C6: settling the low-stock store (insufficient
seats) reaches an observable intermediate state in which the `failed`
transaction row for booking 5 already exists while the booking is
still `accepted` — the failure branch inserts the transaction before
the booking transition (src/index.js:1374-1397). -/
theorem C6_counterexample_txn_before_terminal_state :
    ∃ smid ∈ verifyStates lowStockDB sampleSession,
      (∃ tx ∈ smid.transactions, tx.bookingId = 5 ∧ tx.status = "failed")
        ∧ bookingStatus smid 5 ≠ some "payment_failed" := by decide

/-- C6 as amended: in the success branch the `completed` transaction
is the last write, issued after the booking is marked `paid`; in the
failure branch the `failed` transaction is the first write, issued
before the booking is marked `payment_failed`. -/
theorem C6_amended_write_order (s : DB) (sess : StripeSession) (b : Booking)
    (hps : sess.payment_status = "paid")
    (hb : findBooking s sess.bookingId = some b)
    (hnp : b.status ≠ "paid") :
    (∀ t, s.tickets.find? (fun u => u.tid == b.ticketId
          && b.bookingQuantity ≤ u.ticketQuantity) = some t →
        (verifyPayment s sess).2
          = [ VWrite.decTicket b.ticketId b.bookingQuantity,
              VWrite.setBooking b.bid "paid" sess.payment_intent,
              VWrite.insertTxn
                { transactionId := sess.payment_intent, bookingId := b.bid,
                  amount := b.totalPrice, status := "completed", note := none } ])
      ∧ (s.tickets.find? (fun u => u.tid == b.ticketId
            && b.bookingQuantity ≤ u.ticketQuantity) = none →
          (verifyPayment s sess).2
            = [ VWrite.insertTxn
                  { transactionId := sess.payment_intent, bookingId := b.bid,
                    amount := b.totalPrice, status := "failed",
                    note := some "Insufficient tickets to fulfill booking" },
                VWrite.setBooking b.bid "payment_failed" sess.payment_intent ]) := by
  constructor
  · intro t hcond
    rw [verifyPayment_success s sess b t hps hb hnp hcond]
  · intro hcond
    rw [verifyPayment_insufficient s sess b hps hb hnp hcond]

/-- Witness for the amended C6 at the sample stores: the success
branch's write list ends with the transaction insert, the failure
branch's write list begins with it. -/
theorem C6_amended_write_order_witness :
    (verifyPayment sampleDB sampleSession).2
        = [ VWrite.decTicket 1 2,
            VWrite.setBooking 5 "paid" (some "pi_1"),
            VWrite.insertTxn
              { transactionId := some "pi_1", bookingId := 5, amount := 20,
                status := "completed", note := none } ]
      ∧ (verifyPayment lowStockDB sampleSession).2
          = [ VWrite.insertTxn
                { transactionId := some "pi_1", bookingId := 5, amount := 20,
                  status := "failed",
                  note := some "Insufficient tickets to fulfill booking" },
              VWrite.setBooking 5 "payment_failed" (some "pi_1") ] := by
  have h1 := (C6_amended_write_order sampleDB sampleSession sampleBooking
    rfl (by decide) (by decide)).1 sampleTicket (by decide)
  have h2 := (C6_amended_write_order lowStockDB sampleSession sampleBooking
    rfl (by decide) (by decide)).2 (by decide)
  exact ⟨by simpa [sampleBooking, sampleSession] using h1,
    by simpa [sampleBooking, sampleSession] using h2⟩

/-- C7 is a code bug: `POST /api/bookings` itself decrements the
ticket's remaining quantity (src/index.js:1105-1108), although the
spec reserves decrements to settlement.  Evaluating the creation
route at a concrete store: a booking of 2 seats drops the ticket's
quantity from 5 to 3 at creation time. -/
theorem C7_creation_decrements_inventory :
    ticketQty sampleDB 1 = some 5
      ∧ ticketQty (createBooking sampleDB (some 1) 2).2.1 1 = some 3 := by decide

/-- Counterexample to C8: `PUT /api/bookings/:id/status` moves the
`paid` booking 5 back to `pending` (so `paid` is not terminal), and
moves the `pending` booking 6 straight to `paid` (so settlement is
not the only operation that sets `paid`). -/
theorem C8_counterexample_status_route_unrestricted :
    bookingStatus (updateBookingStatus paidPendingDB 5 "pending").2 5
        = some "pending"
      ∧ bookingStatus (updateBookingStatus paidPendingDB 6 "paid").2 6
          = some "paid" := by decide

/-- C8 as amended: settlement moves a non-paid booking only to `paid`
or `payment_failed`, but the generic status route sets a booking's
status to any requested value without validating the transition, so
`paid`/`payment_failed` can also be reached through it and no status
is terminal. -/
theorem C8_amended_status_transitions (s : DB) :
    (∀ i st b, findBooking s i = some b →
        (updateBookingStatus s i st).1 = 200
          ∧ bookingStatus (updateBookingStatus s i st).2 i = some st)
      ∧ (∀ sess b, sess.payment_status = "paid" →
          findBooking s sess.bookingId = some b → b.status ≠ "paid" →
          bookingStatus (verifyRun s sess).2 sess.bookingId = some "paid"
            ∨ bookingStatus (verifyRun s sess).2 sess.bookingId
                = some "payment_failed") := by
  constructor
  · intro i st b hbf
    unfold updateBookingStatus
    rw [hbf]
    refine ⟨rfl, ?_⟩
    simp only [bookingStatus, findBooking]
    rw [show (fun x => x.bid == i) = (fun x => Booking.bid x == i) from rfl,
      find?_updateWhere_key Booking.bid i
        (fun x => { x with status := st }) (fun x => rfl) s.bookings]
    have : List.find? (fun x => Booking.bid x == i) s.bookings = some b := hbf
    rw [this]
    rfl
  · intro sess b hps hbf hnp
    have hbid : b.bid = sess.bookingId := findBooking_bid s sess.bookingId b hbf
    cases hcond : s.tickets.find? (fun u => u.tid == b.ticketId
        && b.bookingQuantity ≤ u.ticketQuantity) with
    | some t =>
      left
      rw [verifyRun_eq, verifyPayment_success s sess b t hps hbf hnp hcond]
      simp only [List.foldl_cons, List.foldl_nil, bookingStatus]
      rw [findBooking_insertTxn, ← hbid, findBooking_setBooking,
        findBooking_decTicket, hbid, hbf]
      rfl
    | none =>
      right
      rw [verifyRun_eq, verifyPayment_insufficient s sess b hps hbf hnp hcond]
      simp only [List.foldl_cons, List.foldl_nil, bookingStatus]
      rw [← hbid, findBooking_setBooking, findBooking_insertTxn, hbid, hbf]
      rfl

/-- Witness for the amended C8: the status route sets booking 5 of
the sample store to an arbitrary value, and settlement drives the
sample booking to `paid` or `payment_failed`. -/
theorem C8_amended_status_transitions_witness :
    ((updateBookingStatus sampleDB 5 "rejected").1 = 200
        ∧ bookingStatus (updateBookingStatus sampleDB 5 "rejected").2 5
            = some "rejected")
      ∧ (bookingStatus (verifyRun sampleDB sampleSession).2 5 = some "paid"
          ∨ bookingStatus (verifyRun sampleDB sampleSession).2 5
              = some "payment_failed") := by
  have h1 := (C8_amended_status_transitions sampleDB).1 5 "rejected"
    sampleBooking (by decide)
  have h2 := (C8_amended_status_transitions sampleDB).2 sampleSession
    sampleBooking rfl (by decide) (by decide)
  exact ⟨h1, h2⟩

/-- Counterexample to C9: a successful `POST /api/bookings` answers
200 (`res.json`), not the claimed 201, and a ticket that exists but
is not in a bookable moderation state answers 404 (it is filtered out
of the lookup), not the claimed 400. -/
theorem C9_counterexample_status_codes :
    (createBooking sampleDB (some 1) 2).1 = 200
      ∧ (createBooking sampleDB (some 1) 2).1 ≠ 201
      ∧ (createBooking pendingTicketDB (some 2) 1).1 = 404
      ∧ (createBooking pendingTicketDB (some 2) 1).1 ≠ 400 := by decide

/-- C9 as amended: `POST /api/bookings` answers 200 with the created
booking (status `pending`, unit price snapshotted from the ticket,
total = unit price × quantity) when the ticket exists in a bookable
state with enough remaining quantity; 404 when no bookable ticket
matches (missing or not in a bookable moderation state); 400 when the
remaining quantity is insufficient. -/
theorem C9_amended_create_booking_contract (s : DB) (i : Nat) (q : Int) :
    (∀ t, findBookableTicket s i = some t → ¬ t.price < 0 →
        ¬ t.ticketQuantity < q →
        (createBooking s (some i) q).1 = 200
          ∧ (createBooking s (some i) q).2.2 = some (mkBooking s t q)
          ∧ (mkBooking s t q).status = "pending"
          ∧ (mkBooking s t q).price = t.price
          ∧ (mkBooking s t q).bookingQuantity = q
          ∧ (mkBooking s t q).totalPrice = t.price * q)
      ∧ (findBookableTicket s i = none →
          createBooking s (some i) q = (404, s, none))
      ∧ (∀ t, findBookableTicket s i = some t → ¬ t.price < 0 →
          t.ticketQuantity < q →
          createBooking s (some i) q = (400, s, none)) := by
  refine ⟨?_, ?_, ?_⟩
  · intro t h hp hq
    rw [createBooking_ok s i q t h hp hq]
    exact ⟨rfl, rfl, rfl, rfl, rfl, rfl⟩
  · intro h
    exact createBooking_notFound s i q h
  · intro t h hp hq
    exact createBooking_insufficient s i q t h hp hq

/-- Witness for the amended C9 at the fixtures: success at the sample
store, 404 at the pending-moderation store, 400 when nine seats are
requested from five. -/
theorem C9_amended_create_booking_contract_witness :
    ((createBooking sampleDB (some 1) 2).1 = 200
        ∧ (createBooking sampleDB (some 1) 2).2.2
            = some (mkBooking sampleDB sampleTicket 2))
      ∧ createBooking pendingTicketDB (some 2) 1 = (404, pendingTicketDB, none)
      ∧ createBooking sampleDB (some 1) 9 = (400, sampleDB, none) := by
  have h1 := (C9_amended_create_booking_contract sampleDB 1 2).1 sampleTicket
    (by decide) (by decide) (by decide)
  have h2 := (C9_amended_create_booking_contract pendingTicketDB 2 1).2.1
    (by decide)
  have h3 := (C9_amended_create_booking_contract sampleDB 1 9).2.2 sampleTicket
    (by decide) (by decide) (by decide)
  exact ⟨⟨h1.1, h1.2.1⟩, h2, h3⟩

/-- C10: `POST /api/payment/create-session` refuses (400) to open a
gateway session for an accepted booking whose departure date/time
fails to parse or is not strictly in the future, without reaching the
gateway call and without touching the store
(src/index.js:1278-1288). -/
theorem C10_session_refused_for_past_departure (s : DB) (i : Nat) (b : Booking)
    (parseDT : String → Option Int) (now : Int)
    (hb : findBooking s i = some b)
    (hacc : b.status = "accepted")
    (hdt : ∀ dt, parseDT (b.departureDate ++ " " ++ b.departureTime) = some dt →
        dt ≤ now) :
    createSession s i parseDT now = (400, s, false) := by
  simp only [createSession]
  rw [hb]
  simp only [hacc, bne_self_eq_false, Bool.false_eq_true, if_false]
  cases hp : parseDT (b.departureDate ++ " " ++ b.departureTime) with
  | none => rfl
  | some dt => simp [hdt dt hp]

/-- Witness for C10: the sample booking with a parseable departure at
time 3 and current time 5 is refused with 400 and no gateway call. -/
theorem C10_session_refused_for_past_departure_witness :
    createSession sampleDB 5 (fun _ => some 3) 5 = (400, sampleDB, false) :=
  C10_session_refused_for_past_departure sampleDB 5 sampleBooking
    (fun _ => some 3) 5 (by decide) rfl
    (fun dt h => by
      have h3 : dt = 3 := (Option.some.inj h).symm
      rw [h3]
      decide)

/-! ## Invariant machinery for the operation traces (C3, C4) -/

theorem updateWhere_cond_drop (key : α → Nat) (i : Nat) (c : α → Bool)
    (f : α → α) (l : List α) (hnd : (l.map key).Nodup) (u : α)
    (hu : l.find? (fun x => key x == i && c x) = some u) :
    updateWhere (fun x => key x == i && c x) f l
      = updateWhere (fun x => key x == i) f l := by
  have hu_mem := List.mem_of_find?_eq_some hu
  have hu_pred := List.find?_some hu
  rw [Bool.and_eq_true, beq_iff_eq] at hu_pred
  obtain ⟨hui, huc⟩ := hu_pred
  unfold updateWhere
  refine List.map_congr_left fun y hy => ?_
  by_cases hk : key y = i
  · have hyu : y = u := List.inj_on_of_nodup_map hnd hy hu_mem (by rw [hk, hui])
    subst hyu
    simp [hk, huc]
  · simp [hk]

theorem verifyRun_state_cases (s : DB) (sess : StripeSession) :
    (verifyRun s sess).2 = s
      ∨ (∃ b t, findBooking s sess.bookingId = some b ∧ b.status ≠ "paid"
          ∧ s.tickets.find? (fun u => u.tid == b.ticketId
              && b.bookingQuantity ≤ u.ticketQuantity) = some t
          ∧ (verifyRun s sess).2
              = applyVWrite (applyVWrite (applyVWrite s
                  (.decTicket b.ticketId b.bookingQuantity))
                  (.setBooking b.bid "paid" sess.payment_intent))
                  (.insertTxn
                    { transactionId := sess.payment_intent, bookingId := b.bid,
                      amount := b.totalPrice, status := "completed",
                      note := none }))
      ∨ (∃ b, findBooking s sess.bookingId = some b ∧ b.status ≠ "paid"
          ∧ s.tickets.find? (fun u => u.tid == b.ticketId
              && b.bookingQuantity ≤ u.ticketQuantity) = none
          ∧ (verifyRun s sess).2
              = applyVWrite (applyVWrite s
                  (.insertTxn
                    { transactionId := sess.payment_intent, bookingId := b.bid,
                      amount := b.totalPrice, status := "failed",
                      note := some "Insufficient tickets to fulfill booking" }))
                  (.setBooking b.bid "payment_failed" sess.payment_intent)) := by
  by_cases hps : sess.payment_status = "paid"
  · cases hb : findBooking s sess.bookingId with
    | none =>
      left
      rw [verifyRun_eq, verifyPayment_noBooking s sess hps hb]
      rfl
    | some b =>
      by_cases hbp : b.status = "paid"
      · left
        rw [verifyRun_eq, verifyPayment_alreadyPaid s sess b hps hb hbp]
        rfl
      · cases hcond : s.tickets.find? (fun u => u.tid == b.ticketId
            && b.bookingQuantity ≤ u.ticketQuantity) with
        | some t =>
          right; left
          refine ⟨b, t, rfl, hbp, hcond, ?_⟩
          rw [verifyRun_eq, verifyPayment_success s sess b t hps hb hbp hcond]
          rfl
        | none =>
          right; right
          refine ⟨b, rfl, hbp, hcond, ?_⟩
          rw [verifyRun_eq, verifyPayment_insufficient s sess b hps hb hbp hcond]
          rfl
  · left
    rw [verifyRun_eq, verifyPayment_notPaid s sess hps]
    rfl

theorem StoreInv0_decTicket (s : DB) (i : Nat) (q : Int) (h : StoreInv0 s) :
    StoreInv0 (applyVWrite s (.decTicket i q)) := by
  obtain ⟨hnd, hpos⟩ := h
  constructor
  · show ((updateWhere _ _ s.tickets).map Ticket.tid).Nodup
    rw [map_key_updateWhere Ticket.tid
      (fun t => t.tid == i && decide (q ≤ t.ticketQuantity))
      (fun t => { t with ticketQuantity := t.ticketQuantity - q })
      (fun x => rfl)]
    exact hnd
  · intro x hx
    obtain ⟨y, hy, rfl⟩ := List.mem_map.mp hx
    by_cases hp : (y.tid == i && decide (q ≤ y.ticketQuantity)) = true
    · have hq2 : q ≤ y.ticketQuantity := by
        rw [Bool.and_eq_true, decide_eq_true_eq] at hp
        exact hp.2
      rw [if_pos hp]
      show 0 ≤ y.ticketQuantity - q
      omega
    · rw [if_neg hp]
      exact hpos y hy

theorem qtySum_decTicket_of_found (s : DB) (i : Nat) (q : Int) (j : Nat)
    (hnd : (s.tickets.map Ticket.tid).Nodup) (u : Ticket)
    (hcond : s.tickets.find?
        (fun x => x.tid == i && decide (q ≤ x.ticketQuantity)) = some u) :
    qtySum j (applyVWrite s (.decTicket i q))
      = qtySum j s - (if i == j then q else 0) := by
  have hui : u.tid = i ∧ q ≤ u.ticketQuantity := by
    have h := List.find?_some hcond
    simpa using h
  have hdrop := updateWhere_cond_drop Ticket.tid i
    (fun x => decide (q ≤ x.ticketQuantity))
    (fun t => { t with ticketQuantity := t.ticketQuantity - q })
    s.tickets hnd u hcond
  have hfind : s.tickets.find? (fun x => Ticket.tid x == i) = some u :=
    find?_key_of_mem Ticket.tid i s.tickets hnd u
      (List.mem_of_find?_eq_some hcond) hui.1
  simp only [qtySum, applyVWrite]
  rw [hdrop, sum_map_updateWhere_key
    (fun t => if t.tid == j then t.ticketQuantity else 0) Ticket.tid i
    (fun t => { t with ticketQuantity := t.ticketQuantity - q })
    s.tickets hnd, hfind]
  simp only [Option.elim]
  by_cases hj : i = j
  · subst hj
    simp [hui.1]
    ring
  · have : ¬ u.tid = j := by rw [hui.1]; exact hj
    simp [this, hj]

theorem qtySum_setBooking (s : DB) (bid0 : Nat) (st : String)
    (tx : Option String) (j : Nat) :
    qtySum j (applyVWrite s (.setBooking bid0 st tx)) = qtySum j s := rfl

theorem qtySum_insertTxn (s : DB) (t : Txn) (j : Nat) :
    qtySum j (applyVWrite s (.insertTxn t)) = qtySum j s := rfl

theorem bookedSum_decTicket (s : DB) (i : Nat) (q : Int) (j : Nat) :
    bookedSum j (applyVWrite s (.decTicket i q)) = bookedSum j s := rfl

theorem bookedSum_insertTxn (s : DB) (t : Txn) (j : Nat) :
    bookedSum j (applyVWrite s (.insertTxn t)) = bookedSum j s := rfl

theorem soldSum_decTicket (s : DB) (i : Nat) (q : Int) (j : Nat) :
    soldSum j (applyVWrite s (.decTicket i q)) = soldSum j s := rfl

theorem soldSum_insertTxn (s : DB) (t : Txn) (j : Nat) :
    soldSum j (applyVWrite s (.insertTxn t)) = soldSum j s := rfl

theorem bookedSum_setBooking (s : DB) (bid0 : Nat) (st : String)
    (tx : Option String) (j : Nat) :
    bookedSum j (applyVWrite s (.setBooking bid0 st tx)) = bookedSum j s := by
  simp only [bookedSum, applyVWrite]
  exact sum_map_updateWhere_congr _ _ _ s.bookings (fun x _ => rfl)

theorem soldSum_setBooking_of_found (s : DB) (bid0 : Nat) (st : String)
    (tx : Option String) (j : Nat)
    (hnd : (s.bookings.map Booking.bid).Nodup) (b : Booking)
    (hfb : s.bookings.find? (fun x => x.bid == bid0) = some b) :
    soldSum j (applyVWrite s (.setBooking bid0 st tx))
      = soldSum j s
        + ((if b.ticketId == j && st == "paid" then b.bookingQuantity else 0)
           - (if b.ticketId == j && b.status == "paid"
              then b.bookingQuantity else 0)) := by
  simp only [soldSum, applyVWrite]
  rw [sum_map_updateWhere_key
    (fun x => if x.ticketId == j && x.status == "paid"
      then x.bookingQuantity else 0) Booking.bid bid0
    (fun x => { x with status := st, transactionId := tx })
    s.bookings hnd, hfb]
  rfl

theorem sum_map_append_single (g : α → Int) (l : List α) (x : α) :
    ((l ++ [x]).map g).sum = (l.map g).sum + g x := by
  simp

theorem StoreMeta_decTicket (s : DB) (i : Nat) (q : Int) (h : StoreMeta s) :
    StoreMeta (applyVWrite s (.decTicket i q)) := by
  obtain ⟨hTnd, hBnd, hFresh, hQpos, hTpos⟩ := h
  have h0 := StoreInv0_decTicket s i q ⟨hTnd, hTpos⟩
  exact ⟨h0.1, hBnd, hFresh, hQpos, h0.2⟩

theorem StoreMeta_setBooking (s : DB) (bid0 : Nat) (st : String)
    (tx : Option String) (h : StoreMeta s) :
    StoreMeta (applyVWrite s (.setBooking bid0 st tx)) := by
  obtain ⟨hTnd, hBnd, hFresh, hQpos, hTpos⟩ := h
  refine ⟨hTnd, ?_, ?_, ?_, hTpos⟩
  · show ((updateWhere _ _ s.bookings).map Booking.bid).Nodup
    rw [map_key_updateWhere Booking.bid (fun x => x.bid == bid0)
      (fun x => { x with status := st, transactionId := tx }) (fun x => rfl)]
    exact hBnd
  · intro x hx
    obtain ⟨y, hy, rfl⟩ := List.mem_map.mp hx
    by_cases hp : (y.bid == bid0) = true
    · rw [if_pos hp]
      exact hFresh y hy
    · rw [if_neg hp]
      exact hFresh y hy
  · intro x hx
    obtain ⟨y, hy, rfl⟩ := List.mem_map.mp hx
    by_cases hp : (y.bid == bid0) = true
    · rw [if_pos hp]
      exact hQpos y hy
    · rw [if_neg hp]
      exact hQpos y hy

theorem StoreMeta_insertTxn (s : DB) (t : Txn) (h : StoreMeta s) :
    StoreMeta (applyVWrite s (.insertTxn t)) := h

theorem StoreInv_settle (orig : Nat → Int) (s : DB) (sess : StripeSession)
    (h : StoreInv orig s) : StoreInv orig ((verifyRun s sess).2) := by
  obtain ⟨hm, hE⟩ := h
  rcases verifyRun_state_cases s sess with heq | ⟨b, t, hbf, hnp, hcond, heq⟩
    | ⟨b, hbf, hnp, hcond, heq⟩
  · rw [heq]
    exact ⟨hm, hE⟩
  · rw [heq]
    have hbid : b.bid = sess.bookingId := findBooking_bid s sess.bookingId b hbf
    have hfb' : s.bookings.find? (fun x => x.bid == b.bid) = some b := by
      rw [hbid]
      exact hbf
    refine ⟨StoreMeta_insertTxn _ _ (StoreMeta_setBooking _ _ _ _
      (StoreMeta_decTicket _ _ _ hm)), ?_⟩
    intro j
    have hnd' : ((applyVWrite s
        (.decTicket b.ticketId b.bookingQuantity)).bookings.map
          Booking.bid).Nodup := hm.2.1
    have hfb2 : (applyVWrite s
        (.decTicket b.ticketId b.bookingQuantity)).bookings.find?
          (fun x => x.bid == b.bid) = some b := hfb'
    rw [qtySum_insertTxn, bookedSum_insertTxn, soldSum_insertTxn,
      qtySum_setBooking, bookedSum_setBooking,
      soldSum_setBooking_of_found _ _ _ _ _ hnd' b hfb2,
      qtySum_decTicket_of_found s b.ticketId b.bookingQuantity j hm.1 t hcond,
      bookedSum_decTicket, soldSum_decTicket]
    have hst : (b.status == "paid") = false := by
      simpa using hnp
    have hEj := hE j
    simp only [hst, beq_self_eq_true, Bool.and_true, Bool.and_false,
      Bool.false_eq_true, if_false]
    by_cases hj : (b.ticketId == j) = true
    · simp only [hj, if_true]
      omega
    · simp only [hj, Bool.false_eq_true, if_false]
      omega
  · rw [heq]
    have hbid : b.bid = sess.bookingId := findBooking_bid s sess.bookingId b hbf
    have hfb' : s.bookings.find? (fun x => x.bid == b.bid) = some b := by
      rw [hbid]
      exact hbf
    refine ⟨StoreMeta_setBooking _ _ _ _ (StoreMeta_insertTxn _ _ hm), ?_⟩
    intro j
    have hnd' : ((applyVWrite s
        (.insertTxn
          { transactionId := sess.payment_intent, bookingId := b.bid,
            amount := b.totalPrice, status := "failed",
            note := some "Insufficient tickets to fulfill booking" })).bookings.map
          Booking.bid).Nodup := hm.2.1
    have hfb2 : (applyVWrite s
        (.insertTxn
          { transactionId := sess.payment_intent, bookingId := b.bid,
            amount := b.totalPrice, status := "failed",
            note := some "Insufficient tickets to fulfill booking" })).bookings.find?
          (fun x => x.bid == b.bid) = some b := hfb'
    rw [qtySum_setBooking, bookedSum_setBooking,
      soldSum_setBooking_of_found _ _ _ _ _ hnd' b hfb2,
      qtySum_insertTxn, bookedSum_insertTxn, soldSum_insertTxn]
    have hst : (b.status == "paid") = false := by
      simpa using hnp
    have hEj := hE j
    have hpf : ("payment_failed" == "paid") = false := rfl
    simp only [hst, hpf, Bool.and_false, Bool.false_eq_true, if_false]
    omega

theorem StoreInv0_createB (s : DB) (i? : Option Nat) (q : Int)
    (h : StoreInv0 s) : StoreInv0 ((createBooking s i? q).2.1) := by
  obtain ⟨hnd, hpos⟩ := h
  cases i? with
  | none => exact ⟨hnd, hpos⟩
  | some i =>
    cases hfb : findBookableTicket s i with
    | none =>
      rw [createBooking_notFound s i q hfb]
      exact ⟨hnd, hpos⟩
    | some t =>
      by_cases hp : t.price < 0
      · rw [createBooking_badPrice s i q t hfb hp]
        exact ⟨hnd, hpos⟩
      · by_cases hq : t.ticketQuantity < q
        · rw [createBooking_insufficient s i q t hfb hp hq]
          exact ⟨hnd, hpos⟩
        · rw [createBooking_ok s i q t hfb hp hq]
          refine ⟨?_, ?_⟩
          · show ((updateWhere _ _ s.tickets).map Ticket.tid).Nodup
            rw [map_key_updateWhere Ticket.tid (fun u => u.tid == t.tid)
              (fun u => { u with ticketQuantity := u.ticketQuantity - q })
              (fun x => rfl)]
            exact hnd
          · intro x hx
            obtain ⟨y, hy, rfl⟩ := List.mem_map.mp hx
            by_cases hk : (y.tid == t.tid) = true
            · have hyt : y = t := by
                refine List.inj_on_of_nodup_map hnd hy
                  (List.mem_of_find?_eq_some hfb) ?_
                simpa using hk
              subst hyt
              rw [if_pos hk]
              show 0 ≤ y.ticketQuantity - q
              omega
            · rw [if_neg hk]
              exact hpos y hy

theorem StoreInv_createB (orig : Nat → Int) (s : DB) (i? : Option Nat)
    (q : Int) (hq0 : 0 ≤ q) (h : StoreInv orig s) :
    StoreInv orig ((createBooking s i? q).2.1) := by
  obtain ⟨⟨hTnd, hBnd, hFresh, hQpos, hTpos⟩, hE⟩ := h
  cases i? with
  | none => exact ⟨⟨hTnd, hBnd, hFresh, hQpos, hTpos⟩, hE⟩
  | some i =>
    cases hfb : findBookableTicket s i with
    | none =>
      rw [createBooking_notFound s i q hfb]
      exact ⟨⟨hTnd, hBnd, hFresh, hQpos, hTpos⟩, hE⟩
    | some t =>
      by_cases hp : t.price < 0
      · rw [createBooking_badPrice s i q t hfb hp]
        exact ⟨⟨hTnd, hBnd, hFresh, hQpos, hTpos⟩, hE⟩
      · by_cases hq : t.ticketQuantity < q
        · rw [createBooking_insufficient s i q t hfb hp hq]
          exact ⟨⟨hTnd, hBnd, hFresh, hQpos, hTpos⟩, hE⟩
        · rw [createBooking_ok s i q t hfb hp hq]
          have h0 := StoreInv0_createB s (some i) q ⟨hTnd, hTpos⟩
          rw [createBooking_ok s i q t hfb hp hq] at h0
          refine ⟨⟨h0.1, ?_, ?_, ?_, h0.2⟩, ?_⟩
          · show ((s.bookings ++ [mkBooking s t q]).map Booking.bid).Nodup
            rw [List.map_append]
            rw [List.nodup_append]
            refine ⟨hBnd, List.nodup_singleton _, ?_⟩
            intro x hx hx2
            obtain ⟨y, hy, rfl⟩ := List.mem_map.mp hx
            have hlt := hFresh y hy
            have : Booking.bid y = s.nextId := by
              simpa [mkBooking] using hx2
            omega
          · intro x hx
            rcases List.mem_append.mp hx with hx1 | hx2
            · have := hFresh x hx1
              show x.bid < s.nextId + 1
              omega
            · have : x = mkBooking s t q := by simpa using hx2
              subst this
              show s.nextId < s.nextId + 1
              omega
          · intro x hx
            rcases List.mem_append.mp hx with hx1 | hx2
            · exact hQpos x hx1
            · have : x = mkBooking s t q := by simpa using hx2
              subst this
              exact hq0
          · intro j
            have hfind : s.tickets.find? (fun x => Ticket.tid x == t.tid)
                = some t :=
              find?_key_of_mem Ticket.tid t.tid s.tickets hTnd t
                (List.mem_of_find?_eq_some hfb) rfl
            have hqty : qtySum j
                ({ s with
                   bookings := s.bookings ++ [mkBooking s t q]
                   nextId := s.nextId + 1
                   tickets := updateWhere (fun u => u.tid == t.tid)
                     (fun u => { u with ticketQuantity := u.ticketQuantity - q })
                     s.tickets } : DB)
                = qtySum j s
                  + ((if (t.tid == j) = true then t.ticketQuantity - q else 0)
                     - (if (t.tid == j) = true then t.ticketQuantity else 0)) := by
              simp only [qtySum]
              rw [sum_map_updateWhere_key
                (fun x => if x.tid == j then x.ticketQuantity else 0)
                Ticket.tid t.tid
                (fun u => { u with ticketQuantity := u.ticketQuantity - q })
                s.tickets hTnd, hfind]
              rfl
            have hbooked : bookedSum j
                ({ s with
                   bookings := s.bookings ++ [mkBooking s t q]
                   nextId := s.nextId + 1
                   tickets := updateWhere (fun u => u.tid == t.tid)
                     (fun u => { u with ticketQuantity := u.ticketQuantity - q })
                     s.tickets } : DB)
                = bookedSum j s
                  + (if (t.tid == j) = true then q else 0) := by
              simp only [bookedSum]
              rw [sum_map_append_single]
              rfl
            have hsold : soldSum j
                ({ s with
                   bookings := s.bookings ++ [mkBooking s t q]
                   nextId := s.nextId + 1
                   tickets := updateWhere (fun u => u.tid == t.tid)
                     (fun u => { u with ticketQuantity := u.ticketQuantity - q })
                     s.tickets } : DB)
                = soldSum j s := by
              simp only [soldSum]
              rw [sum_map_append_single]
              have : (if ((mkBooking s t q).ticketId == j
                  && (mkBooking s t q).status == "paid") = true
                  then (mkBooking s t q).bookingQuantity else 0) = 0 := by
                have hps : ((mkBooking s t q).status == "paid") = false := rfl
                simp [hps]
              rw [this]
              ring
            rw [hqty, hbooked, hsold]
            have hEj := hE j
            by_cases hj : (t.tid == j) = true
            · simp only [hj, if_true]
              omega
            · simp only [hj, Bool.false_eq_true, if_false]
              omega

theorem StoreInv0_settle (s : DB) (sess : StripeSession) (h : StoreInv0 s) :
    StoreInv0 ((verifyRun s sess).2) := by
  rcases verifyRun_state_cases s sess with heq | ⟨b, t, hbf, hnp, hcond, heq⟩
    | ⟨b, hbf, hnp, hcond, heq⟩
  · rw [heq]
    exact h
  · rw [heq]
    exact StoreInv0_decTicket s b.ticketId b.bookingQuantity h
  · rw [heq]
    exact h

theorem StoreInv0_runOps (ops : List Op) :
    ∀ s : DB, StoreInv0 s → StoreInv0 (runOps s ops) := by
  induction ops with
  | nil => intro s h; exact h
  | cons op ops ih =>
    intro s h
    show StoreInv0 (runOps (applyOp s op) ops)
    refine ih (applyOp s op) ?_
    cases op with
    | createB i? q => exact StoreInv0_createB s i? q h
    | settle sess => exact StoreInv0_settle s sess h

theorem StoreInv_runOps (orig : Nat → Int) (ops : List Op) :
    ∀ s : DB, (∀ op ∈ ops, opQNonneg op) → StoreInv orig s →
      StoreInv orig (runOps s ops) := by
  induction ops with
  | nil => intro s _ h; exact h
  | cons op ops ih =>
    intro s hops h
    have hop := hops op (List.mem_cons_self op ops)
    show StoreInv orig (runOps (applyOp s op) ops)
    refine ih (applyOp s op) (fun o ho => hops o (List.mem_cons_of_mem op ho)) ?_
    cases op with
    | createB i? q => exact StoreInv_createB orig s i? q hop h
    | settle sess => exact StoreInv_settle orig s sess h

/-- C3: starting from a store whose ticket quantities are all
non-negative (ids unique, as the `_id` index guarantees), any
sequence of booking-creation and settlement operations leaves every
ticket's remaining quantity non-negative. -/
theorem C3_remaining_quantity_never_negative (s0 : DB) (ops : List Op)
    (hnd : (s0.tickets.map Ticket.tid).Nodup)
    (h0 : ∀ t ∈ s0.tickets, 0 ≤ t.ticketQuantity) :
    ∀ t ∈ (runOps s0 ops).tickets, 0 ≤ t.ticketQuantity :=
  (StoreInv0_runOps ops s0 ⟨hnd, h0⟩).2

/-- Witness for C3: after creating a booking of 2 seats and settling
it, the sample ticket sits at quantity 1, which is non-negative. -/
theorem C3_remaining_quantity_never_negative_witness :
    (0 : Int) ≤ ({ tid := 1, price := 10, ticketQuantity := 1,
                   status := "accepted", departureDate := "2030-01-01",
                   departureTime := "10:00" } : Ticket).ticketQuantity :=
  C3_remaining_quantity_never_negative sampleDB
    [Op.createB (some 1) 2, Op.settle sampleSession]
    (by decide) (by decide) _ (by decide)

/-- C4: from a valid initial state (unique ticket ids, non-negative
quantities, no bookings yet), after any sequence of booking-creation
(with non-negative requested quantities) and settlement operations,
the quantity reserved by non-terminal bookings plus the quantity sold
never exceeds a ticket's original quantity. -/
theorem C4_reserved_plus_sold_le_original (s0 : DB) (ops : List Op)
    (hnd : (s0.tickets.map Ticket.tid).Nodup)
    (hb0 : s0.bookings = [])
    (h0 : ∀ t ∈ s0.tickets, 0 ≤ t.ticketQuantity)
    (hops : ∀ op ∈ ops, opQNonneg op)
    (i : Nat) (t0 : Ticket) (ht : findTicket s0 i = some t0) :
    reservedSum i (runOps s0 ops) + soldSum i (runOps s0 ops)
      ≤ t0.ticketQuantity := by
  have hinv0 : StoreInv (fun j => qtySum j s0) s0 := by
    refine ⟨⟨hnd, ?_, ?_, ?_, h0⟩, fun j => ?_⟩
    · rw [hb0]
      exact List.nodup_nil
    · intro b hb
      rw [hb0] at hb
      cases hb
    · intro b hb
      rw [hb0] at hb
      cases hb
    · show qtySum j s0 + bookedSum j s0 + soldSum j s0 = qtySum j s0
      have h1 : bookedSum j s0 = 0 := by simp [bookedSum, hb0]
      have h2 : soldSum j s0 = 0 := by simp [soldSum, hb0]
      omega
  have hinv := StoreInv_runOps (fun j => qtySum j s0) ops s0 hops hinv0
  obtain ⟨⟨hTnd, hBnd, hFresh, hQpos, hTpos⟩, hE⟩ := hinv
  have horig : qtySum i s0 = t0.ticketQuantity :=
    sum_map_eq_of_find? Ticket.tid Ticket.ticketQuantity i s0.tickets hnd t0 ht
  have hEi : qtySum i (runOps s0 ops) + bookedSum i (runOps s0 ops)
      + soldSum i (runOps s0 ops) = qtySum i s0 := hE i
  have hres : reservedSum i (runOps s0 ops) ≤ bookedSum i (runOps s0 ops) := by
    simp only [reservedSum, bookedSum]
    apply List.sum_le_sum
    intro b hbmem
    by_cases hc : (b.ticketId == i
        && (b.status == "pending" || b.status == "accepted")) = true
    · rw [if_pos hc]
      rw [Bool.and_eq_true] at hc
      rw [if_pos hc.1]
    · rw [if_neg hc]
      by_cases hc2 : (b.ticketId == i) = true
      · rw [if_pos hc2]
        exact hQpos b hbmem
      · rw [if_neg hc2]
  have hqty0 : 0 ≤ qtySum i (runOps s0 ops) := by
    simp only [qtySum]
    apply List.sum_nonneg
    intro x hx
    rw [List.mem_map] at hx
    obtain ⟨y, hy, rfl⟩ := hx
    by_cases hc : (y.tid == i) = true
    · rw [if_pos hc]
      exact hTpos y hy
    · rw [if_neg hc]
  omega

/-- Witness for C4: creating a booking of 2 seats on the fresh store
and settling it leaves reserved + sold = 0 + 2 within the original
quantity 5. -/
theorem C4_reserved_plus_sold_le_original_witness :
    reservedSum 1 (runOps freshDB
        [Op.createB (some 1) 2, Op.settle freshSession])
      + soldSum 1 (runOps freshDB
          [Op.createB (some 1) 2, Op.settle freshSession]) ≤ 5 :=
  C4_reserved_plus_sold_le_original freshDB
    [Op.createB (some 1) 2, Op.settle freshSession]
    (by decide) rfl (by decide) (by decide) 1 sampleTicket (by decide)
